import Mathlib

/-!
# Verification of the CRM risk-assessment pipeline

A shallow embedding of the risk-assessment core of the repository:
`src/llm_client.py` (lexical trigger detection, threshold triggers, the
response cache, verdict parsing/validation, the postpone guard, the HTTP
retry loop) and the date-derivation helpers of `app_streamlit.py`.

Modelling conventions:
* Python floats are modelled as `ℚ`; every operation the code performs on
  scores (comparisons with the literals 0, 2, 0.9 and assignment) is exact,
  so the rational model agrees with the float semantics on all verified
  code paths.  `round(x, 2)` is modelled by rounding to the nearest
  multiple of 1/100 (`round2`); Python rounds ties to even while `round2`
  rounds ties up, but a tie needs an odd multiple of 1/200, which no score
  in any verified path is.
* The regular-expression engine (`re.search` with `re.I`), Python's
  `float()` applied to strings, and `pd.to_datetime` are external engines
  the code calls; they are abstracted as oracle parameters
  (`PyOracles.reSearch`, `PyOracles.strFloat`, and the `parse` argument of
  the date helpers).  The pattern tables and all the control flow around
  the engines are taken from the source.
* The cache key `sha256(json.dumps(guarded_feats, sort_keys=True))` is a
  hash of a canonical injective serialization of the guarded feature
  record, so fingerprint equality is modelled as equality of the
  `GuardedFeats` record itself (hash collisions abstracted away).
* The external completion endpoint is an oracle `llm : Nat → Except Unit
  LLMResponse` indexed by the number of requests already made; `.error`
  models a transport failure that `_post` re-raises after exhausting its
  retries.  The response body is modelled at the granularity the parsing
  code distinguishes: no brace-delimited span, an unparseable span, or a
  parsed JSON object with optional `score`/`level`/`reason`/`action`
  values.
-/

namespace CRMRisk

/-! ## Python string primitives -/

/-- Lower-casing of one character, for the alphabets occurring in the
code: ASCII `A`-`Z` and Cyrillic `А`-`Я` (U+0410–U+042F) plus `Ё`
(U+0401). -/
def pyLowerChar (c : Char) : Char :=
  if 'A' ≤ c ∧ c ≤ 'Z' then Char.ofNat (c.toNat + 32)
  else if 0x410 ≤ c.toNat ∧ c.toNat ≤ 0x42F then Char.ofNat (c.toNat + 0x20)
  else if c.toNat = 0x401 then Char.ofNat 0x451
  else c

/-- Models Python `str.lower()` (on the alphabets the code uses). -/
def pyLower (s : String) : String :=
  ⟨s.data.map pyLowerChar⟩

/-- Whitespace in the sense of Python `str.strip()` (the characters that
can occur here). -/
def isPySpace (c : Char) : Bool :=
  c = ' ' ∨ c = '\t' ∨ c = '\n' ∨ c = '\r' ∨ c = '\x0b' ∨ c = '\x0c'

/-- Models Python `s.strip()` (no argument): remove leading and trailing
whitespace. -/
def pyTrim (s : String) : String :=
  ⟨((s.data.dropWhile isPySpace).reverse.dropWhile isPySpace).reverse⟩

/-- Models Python `s.startswith(p)`. -/
def pyStartsWith (s p : String) : Bool :=
  p.data.isPrefixOf s.data

/-- Substring test on character lists: `needle` occurs contiguously in the
second argument. -/
def containsSubList (needle : List Char) : List Char → Bool
  | [] => needle.isEmpty
  | c :: t => needle.isPrefixOf (c :: t) || containsSubList needle t

/-- Models Python `needle in hay` for strings. -/
def strContains (hay needle : String) : Bool :=
  containsSubList needle.data hay.data

/-- Models Python `s.strip(chars)`: removes every leading and trailing
character belonging to `cs`. -/
def pyStripChars (cs : List Char) (s : String) : String :=
  ⟨(((s.data.dropWhile (· ∈ cs)).reverse.dropWhile (· ∈ cs)).reverse)⟩

/-- Models Python `round(x, 2)`: round to the nearest multiple of 1/100
(ties differ from Python's round-half-to-even only at odd multiples of
1/200, which never arise in the verified paths). -/
def round2 (q : ℚ) : ℚ := (round (q * 100) : ℤ) / 100

/-! ## Data model -/

/-- The feature record handed to `LLMClient.assess_risk_llm`
(`src/llm_client.py` lines 97-106).  `last_contact_days` and
`stage_age_days` are `Option Int`: `none` models a missing key or a `None`
value, both of which `int(features.get(..., 0) or 0)` coerces to `0`. -/
structure DealFeatures where
  deal_id : String
  client_name : String
  stage : String
  last_contact_days : Option Int
  stage_age_days : Option Int
  deal_value : ℚ
  last_message_text : String
deriving DecidableEq

/-- The verdict dictionary built at `src/llm_client.py` line 191/194. -/
structure RiskVerdict where
  score : ℚ
  level : String
  reason : String
  action : String
deriving DecidableEq

/-- The `guarded_feats` dictionary (`src/llm_client.py` lines 133-135):
the original features plus the two computed trigger lists.  This record is
what `_hash_features` serializes, so it doubles as the cache key (see the
file header on fingerprint modelling). -/
structure GuardedFeats where
  base : DealFeatures
  active_triggers : List String
  semantic_triggers : List String
deriving DecidableEq

/-- A JSON value as Python's `json.loads` materialises it, at the
granularity `assess_risk_llm` distinguishes (numbers, strings, booleans,
null; nested arrays/objects carry only their `str()` rendering). -/
inductive JVal where
  | num (q : ℚ)
  | str (s : String)
  | bool (b : Bool)
  | null
  | container (repr : String)
deriving DecidableEq

/-- The dictionary returned by `_extract_json_block`; each field is `none`
when the corresponding key is absent. -/
structure ParsedObj where
  score : Option JVal
  level : Option JVal
  reason : Option JVal
  action : Option JVal
deriving DecidableEq

/-- A completion-service response body, at the granularity of the parsing
code: `noJson` = the regex `\{.*\}` finds no span (`_extract_json_block`
raises), `badJson` = a span is found but `json.loads` raises, `obj` = a
JSON object was parsed. -/
inductive LLMResponse where
  | noJson
  | badJson
  | obj (o : ParsedObj)
deriving DecidableEq

/-- Oracles for the Python engines the code calls: `reSearch p t` models
`re.search(p, t, re.I) is not None`, and `strFloat s` models `float(s)`
on a string (`none` = `float` raises). -/
structure PyOracles where
  reSearch : String → String → Bool
  strFloat : String → Option ℚ

/-- The mutable module state of `llm_client.py`: the `_CACHE` dict plus a
count of completion requests issued (the call-count on the
completion-service collaborator). -/
structure AssessState where
  cache : List (GuardedFeats × RiskVerdict)
  calls : Nat
deriving DecidableEq

/-- Lookup in the cache (`key in _CACHE` / `_CACHE[key]`); insertion
prepends, so lookup must take the most recent binding. -/
def cacheGet : List (GuardedFeats × RiskVerdict) → GuardedFeats → Option RiskVerdict
  | [], _ => none
  | (k, v) :: t, k' => if k = k' then some v else cacheGet t k'

/-! ## Lexical trigger detector (`src/llm_client.py` lines 7-27) -/

def POSTPONE_PATTERNS : List String :=
  ["\\bчерез\\s+недел", "\\bна\\s+следующ(ей|ую)\\s+недел",
   "\\bпозже\\b", "\\bдавайте\\s+позже\\b", "\\bперенес(ём|ем)\\b",
   "\\bсвяжем(ся)?\\s+позже\\b", "\\bверн(ёмся|емся)\\s+позже\\b"]

def PRICE_PATTERNS : List String :=
  ["\\bдорого\\b", "\\bбюджет(а|у)?\\s*нет\\b"]

def CHOOSE_OTHER_PATTERNS : List String :=
  ["\\bвыбрали\\s+другого\\b", "\\bостановилис[ья]\\s+на\\b"]

def REFUSAL_PATTERNS : List String :=
  ["\\bоткаж\\w*\\b", "\\bнеинтересно\\b"]

/-- The `any_match(pats)` helper inside `semantic_triggers`. -/
def anyMatch (reSearch : String → String → Bool) (pats : List String) (t : String) : Bool :=
  pats.any fun p => reSearch p t

/-- The `semantic_triggers(text)` detector (`src/llm_client.py` lines 16-27): lower the
text, then test the four pattern families in order. -/
def semantic_triggers (reSearch : String → String → Bool) (text : String) : List String :=
  let t := pyLower text
  (if anyMatch reSearch POSTPONE_PATTERNS t then ["postpone"] else []) ++
  (if anyMatch reSearch PRICE_PATTERNS t then ["price_objection"] else []) ++
  (if anyMatch reSearch CHOOSE_OTHER_PATTERNS t then ["chose_other"] else []) ++
  (if anyMatch reSearch REFUSAL_PATTERNS t then ["refusal"] else [])

/-! ## Threshold triggers (`src/llm_client.py` lines 115-127) -/

/-- Models `int(features.get(..., 0) or 0)`: a missing key or `None` becomes 0. -/
def coerceDays : Option Int → Int
  | none => 0
  | some v => v

/-- The `active_triggers` computation (`src/llm_client.py` lines 118-127):
`> 14` high, `elif > 7` medium, independently per dimension. -/
def active_triggers_of (lcd sad : Int) : List String :=
  (if lcd > 14 then ["no_reply_high"]
   else if lcd > 7 then ["no_reply_medium"] else []) ++
  (if sad > 14 then ["stage_age_high"]
   else if sad > 7 then ["stage_age_medium"] else [])

/-- The trigger list `assess_risk_llm` computes for a feature record. -/
def assessTriggers (f : DealFeatures) : List String :=
  active_triggers_of (coerceDays f.last_contact_days) (coerceDays f.stage_age_days)

/-- The guarded feature record whose canonical serialization is hashed by
`_hash_features` (`src/llm_client.py` lines 129-137); stands for the
fingerprint (see header). -/
def featureKey (os : PyOracles) (f : DealFeatures) : GuardedFeats :=
  ⟨f, assessTriggers f, semantic_triggers os.reSearch f.last_message_text⟩

/-! ## Verdict parsing, validation, guard (`src/llm_client.py` lines 172-194) -/

/-- Models Python `str()` on a JSON value.  The exact rendering of numbers
is irrelevant to every code path (it is never one of the level names,
never blank, and never contains the Cyrillic markers tested later). -/
def pyStr : JVal → String
  | .num q => (if q.den = 1 then toString q.num else toString q.num ++ "/" ++ toString q.den)
  | .str s => s
  | .bool b => if b then "True" else "False"
  | .null => "None"
  | .container r => r

/-- Models Python `float()` on a JSON value: numbers and booleans convert,
strings go through the `strFloat` oracle, `null` and containers raise. -/
def pyFloat (os : PyOracles) : JVal → Option ℚ
  | .num q => some q
  | .str s => os.strFloat s
  | .bool b => some (if b then 1 else 0)
  | .null => none
  | .container _ => none

/-- Lines 174-176 of `src/llm_client.py`:
`level = str(obj.get("level", "yellow")).lower()`, forced to `yellow`
when it is not one of the three bands. -/
def validate_level (lv : Option JVal) : String :=
  let level0 := match lv with
    | none => "yellow"
    | some v => pyLower (pyStr v)
  if level0 = "green" ∨ level0 = "yellow" ∨ level0 = "red" then level0 else "yellow"

/-- Lines 178-179 of `src/llm_client.py`: clamp the converted score into
[0, 2]. -/
def clamp_score (s0 : ℚ) : ℚ :=
  let s1 := if s0 < 0 then (0 : ℚ) else s0
  if s1 > 2 then (2 : ℚ) else s1

/-- Lines 180-181 of `src/llm_client.py`:
`str(obj.get(k, "")).strip() or placeholder`. -/
def default_text (placeholder : String) (v : Option JVal) : String :=
  let t := pyTrim (match v with | none => "" | some v => pyStr v)
  if t = "" then placeholder else t

/-- Lines 174-181 of `src/llm_client.py`: read `level`/`score`/`reason`/
`action` out of the parsed object with the code's defaults, clamp the
score into [0, 2], force an unknown level to `yellow`, and replace blank
reason/action with the fixed placeholders.  Returns `none` when `float()`
raises (which aborts the `try` block into the fallback). -/
def parse_validate (os : PyOracles) (o : ParsedObj) : Option (ℚ × String × String × String) :=
  match (match o.score with
         | none => some (1 : ℚ)
         | some v => pyFloat os v) with
  | none => none
  | some s0 =>
    some (clamp_score s0, validate_level o.level,
          default_text "причина не указана" o.reason,
          default_text "Связаться с клиентом сегодня" o.action)

/-- Extraction plus validation: `none` on any path that lands in the
`except` clause (no JSON span, unparseable span, `float()` failure). -/
def parsed_fields (os : PyOracles) : LLMResponse → Option (ℚ × String × String × String)
  | .noJson => none
  | .badJson => none
  | .obj o => parse_validate os o

/-- The fixed safe fallback verdict (`src/llm_client.py` line 194). -/
def llm_fallback : RiskVerdict :=
  ⟨1, "yellow", "fallback: не удалось распарсить ответ", "Связаться с клиентом"⟩

/-- The postpone guard (`src/llm_client.py` lines 183-190): if `postpone`
was detected and the validated level is `green`, force `yellow`, lift the
score to at least 0.9, append the deferral note when the reason does not
already mention it, and replace a bare contact action. -/
def postpone_guard (semTriggers : List String) (s : ℚ) (level reason action : String) :
    ℚ × String × String × String :=
  if "postpone" ∈ semTriggers ∧ level = "green" then
    let level' := "yellow"
    let s' := if s < 9/10 then (9/10 : ℚ) else s
    let reason' :=
      if strContains reason "перенос" = false ∧ strContains reason "позже" = false then
        pyTrim (pyStripChars [';', ' '] (reason ++ "; перенос обсуждения"))
      else reason
    let action' :=
      if action = "" ∨ pyStartsWith (pyLower action) "свяж" then
        "Запланируйте слот на следующей неделе и закрепите повестку письмом."
      else action
    (s', level', reason', action')
  else (s, level, reason, action)

/-- The whole `try`/`except` body (`src/llm_client.py` lines 172-194): on
a parsed verdict the guard runs and the score is rounded into the output
dict; on any parsing failure the fixed fallback is used. -/
def response_verdict (os : PyOracles) (resp : LLMResponse) (semTriggers : List String) :
    RiskVerdict :=
  match parsed_fields os resp with
  | none => llm_fallback
  | some (s, level, reason, action) =>
    let g := postpone_guard semTriggers s level reason action
    ⟨round2 g.1, g.2.1, g.2.2.1, g.2.2.2⟩

/-- Models `LLMClient.assess_risk_llm` (`src/llm_client.py` lines 92-197) as a
state-passing function.  The llm oracle is indexed by the number of
completion requests already issued; `.error` models the exception `_post`
re-raises after its retries, which propagates out of `assess_risk_llm`
before anything is cached. -/
def assess_risk_llm (os : PyOracles) (llm : Nat → Except Unit LLMResponse)
    (features : DealFeatures) (st : AssessState) :
    Except Unit RiskVerdict × AssessState :=
  let key := featureKey os features
  match cacheGet st.cache key with
  | some v => (.ok v, st)
  | none =>
    match llm st.calls with
    | .error e => (.error e, { st with calls := st.calls + 1 })
    | .ok resp =>
      let sem := semantic_triggers os.reSearch features.last_message_text
      let out := response_verdict os resp sem
      (.ok out, { cache := (key, out) :: st.cache, calls := st.calls + 1 })

/-! ## The HTTP retry loop (`src/llm_client.py` lines 56-73) -/

/-- The backoff duration slept after a failed non-final attempt:
`min(2 ** attempt, 4)`. -/
def backoff (attempt : Nat) : Nat := min (2 ^ attempt) 4

/-- The body of `LLMClient._post`'s `for attempt in range(1, max_retries+1)`
loop, over the list of remaining attempt numbers and an oracle giving each
attempt's outcome.  Returns the result, the number of attempts made, and
the list of sleep durations in order. -/
def post_attempts {α : Type} (oracle : Nat → Except Unit α) :
    List Nat → Except Unit α × Nat × List Nat
  | [] => (.error (), 0, [])
  | a :: rest =>
    match oracle a with
    | .ok v => (.ok v, 1, [])
    | .error e =>
      match rest with
      | [] => (.error e, 1, [])
      | b :: t =>
        let r := post_attempts oracle (b :: t)
        (r.1, r.2.1 + 1, backoff a :: r.2.2)

/-- Models `LLMClient._post` with `max_retries = N`: attempts are numbered
1 to N. -/
def LLMClient_post {α : Type} (oracle : Nat → Except Unit α) (maxRetries : Nat) :
    Except Unit α × Nat × List Nat :=
  post_attempts oracle (List.range' 1 maxRetries)

/-! ## Date derivation (`src/app_streamlit.py` lines 347-363) -/

/-- Models `_days_since_any(s)`: `none`/empty string is falsy and yields the
sentinel 9999; the `parse` oracle models `pd.to_datetime` composed with
the day-delta against now (`none` = `NaT` or an exception); a parsed delta
is floored at 0. -/
def days_since_any (parse : String → Option Int) : Option String → Int
  | none => 9999
  | some s =>
    if s = "" then 9999
    else match parse s with
      | none => 9999
      | some d => max 0 d

/-- Models `_stage_age_days(s)`: identical parsing and clamping, but 0 instead of
the sentinel on absence/failure. -/
def stage_age_days_of (parse : String → Option Int) : Option String → Int
  | none => 0
  | some s =>
    if s = "" then 0
    else match parse s with
      | none => 0
      | some d => max 0 d

/-! ## Helper lemmas -/

lemma cacheGet_cons_self (k : GuardedFeats) (v : RiskVerdict)
    (c : List (GuardedFeats × RiskVerdict)) : cacheGet ((k, v) :: c) k = some v := by
  simp [cacheGet]

/-- A cache hit returns the cached verdict and leaves the state alone. -/
lemma assess_cache_hit (os : PyOracles) (llm : Nat → Except Unit LLMResponse)
    (f : DealFeatures) (st : AssessState) (v : RiskVerdict)
    (h : cacheGet st.cache (featureKey os f) = some v) :
    assess_risk_llm os llm f st = (.ok v, st) := by
  simp [assess_risk_llm, h]

/-- A cache miss with a delivered response parses it, stores the verdict
under the key and bumps the request count. -/
lemma assess_cache_miss (os : PyOracles) (llm : Nat → Except Unit LLMResponse)
    (f : DealFeatures) (st : AssessState) (resp : LLMResponse)
    (hmiss : cacheGet st.cache (featureKey os f) = none)
    (hllm : llm st.calls = .ok resp) :
    assess_risk_llm os llm f st =
      (.ok (response_verdict os resp (semantic_triggers os.reSearch f.last_message_text)),
       ⟨(featureKey os f,
          response_verdict os resp (semantic_triggers os.reSearch f.last_message_text)) :: st.cache,
        st.calls + 1⟩) := by
  simp [assess_risk_llm, hmiss, hllm]

/-- Any successful call leaves its verdict in the cache under the call's
key, and a repeated call is a pure cache hit. -/
lemma assess_stores (os : PyOracles) (llm : Nat → Except Unit LLMResponse)
    (f : DealFeatures) (st st₁ : AssessState) (v : RiskVerdict)
    (h : assess_risk_llm os llm f st = (.ok v, st₁)) :
    cacheGet st₁.cache (featureKey os f) = some v ∧
      assess_risk_llm os llm f st₁ = (.ok v, st₁) := by
  cases hc : cacheGet st.cache (featureKey os f) with
  | some w =>
    have h2 := assess_cache_hit os llm f st w hc
    rw [h2] at h
    simp only [Prod.mk.injEq, Except.ok.injEq] at h
    obtain ⟨hv, hst⟩ := h
    subst hv; subst hst
    exact ⟨hc, assess_cache_hit os llm f st _ hc⟩
  | none =>
    cases hl : llm st.calls with
    | error e =>
      exfalso
      have h2 : assess_risk_llm os llm f st = (.error e, { st with calls := st.calls + 1 }) := by
        simp [assess_risk_llm, hc, hl]
      rw [h2] at h
      simp at h
    | ok resp =>
      have h2 := assess_cache_miss os llm f st resp hc hl
      rw [h2] at h
      simp only [Prod.mk.injEq, Except.ok.injEq] at h
      obtain ⟨hv, hst⟩ := h
      subst hv
      have hget : cacheGet st₁.cache (featureKey os f) =
          some (response_verdict os resp (semantic_triggers os.reSearch f.last_message_text)) := by
        rw [← hst]
        exact cacheGet_cons_self ..
      exact ⟨hget, assess_cache_hit os llm f st₁ _ hget⟩

lemma parsed_fields_noJson (os : PyOracles) : parsed_fields os .noJson = none := rfl

/-- Rounding to two decimals cannot drop a score below the 0.9 floor the
guard establishes (0.9 is itself a multiple of 1/100). -/
lemma le_round2_of_le (x : ℚ) (h : 9/10 ≤ x) : 9/10 ≤ round2 x := by
  unfold round2
  have h90 : (90 : ℤ) ≤ round (x * 100) := by
    rw [round_eq]
    refine Int.le_floor.mpr ?_
    push_cast
    linarith
  rw [le_div_iff₀ (by norm_num : (0:ℚ) < 100)]
  have : ((90 : ℤ) : ℚ) ≤ (round (x * 100) : ℚ) := by exact_mod_cast h90
  push_cast at this ⊢
  linarith

/-- The guard leaves the score alone when it is already at least 0.9. -/
lemma postpone_guard_score_of_ge (sem : List String) (s : ℚ) (l r a : String)
    (h : ¬ s < 9/10) : (postpone_guard sem s l r a).1 = s := by
  unfold postpone_guard
  split_ifs <;> simp [h]

/-- The guard is the identity when `postpone` was not detected. -/
lemma postpone_guard_not_fired (sem : List String) (s : ℚ) (l r a : String)
    (h : "postpone" ∉ sem) : postpone_guard sem s l r a = (s, l, r, a) := by
  unfold postpone_guard
  rw [if_neg]
  intro hc
  exact h hc.1

lemma response_verdict_of_unparsed (os : PyOracles) (resp : LLMResponse)
    (sem : List String) (h : parsed_fields os resp = none) :
    response_verdict os resp sem = llm_fallback := by
  simp [response_verdict, h]

lemma clamp_score_bounds (s0 : ℚ) : 0 ≤ clamp_score s0 ∧ clamp_score s0 ≤ 2 := by
  simp only [clamp_score]
  split_ifs <;> constructor <;> linarith

lemma validate_level_valid (lv : Option JVal) :
    validate_level lv = "green" ∨ validate_level lv = "yellow" ∨ validate_level lv = "red" := by
  simp only [validate_level]
  split_ifs with h
  · exact h
  · right; left; rfl

lemma default_text_ne (p : String) (hp : p ≠ "") (v : Option JVal) :
    default_text p v ≠ "" := by
  simp only [default_text]
  split_ifs with h
  · exact hp
  · exact h

/-- If every attempt in a nonempty schedule fails, the loop raises after
exhausting the schedule, sleeping after each attempt but the last. -/
lemma post_attempts_all_fail {α : Type} (oracle : Nat → Except Unit α) :
    ∀ l : List Nat, l ≠ [] → (∀ a ∈ l, oracle a = .error ()) →
      post_attempts oracle l = (.error (), l.length, l.dropLast.map backoff) := by
  intro l
  induction l with
  | nil => intro h; exact absurd rfl h
  | cons a t ih =>
    intro _ hfail
    have ha : oracle a = .error () := hfail a (by simp)
    cases t with
    | nil => simp [post_attempts, ha]
    | cons b t' =>
      have ht := ih (by simp) (fun x hx => hfail x (by simp [hx]))
      simp [post_attempts, ha, ht]

/-- If every attempt in a failing prefix fails and the next attempt
succeeds, the loop returns that success, having slept once per failed
attempt and never after the successful one. -/
lemma post_attempts_succeeds {α : Type} (oracle : Nat → Except Unit α) (v : α) :
    ∀ (pre : List Nat) (b : Nat) (rest : List Nat),
      (∀ a ∈ pre, oracle a = .error ()) → oracle b = .ok v →
      post_attempts oracle (pre ++ b :: rest) = (.ok v, pre.length + 1, pre.map backoff) := by
  intro pre
  induction pre with
  | nil =>
    intro b rest _ hb
    simp [post_attempts, hb]
  | cons a t ih =>
    intro b rest hfail hb
    have ha : oracle a = .error () := hfail a (by simp)
    have ht := ih b rest (fun x hx => hfail x (by simp [hx])) hb
    cases hsplit : t ++ b :: rest with
    | nil => exact absurd hsplit (by simp)
    | cons c u =>
      rw [List.cons_append, hsplit]
      rw [hsplit] at ht
      simp [post_attempts, ha, ht]

/-! ## Fixtures used by the concrete witnesses -/

/-- A concrete oracle bundle: a regex engine matching nothing and a string
`float()` that always raises. -/
def wOs : PyOracles := ⟨fun _ _ => false, fun _ => none⟩

/-- A regex engine that matches exactly the pattern `\bпозже\b` (one of
the postpone family). -/
def wOsPostpone : PyOracles := ⟨fun p _ => p = "\\bпозже\\b", fun _ => none⟩

def wFeat : DealFeatures := ⟨"42", "Acme", "new", some 20, some 3, 100, "hello"⟩

def wFeatNone : DealFeatures := ⟨"7", "Beta", "hot", none, none, 50, ""⟩

/-- A response carrying a fully populated, well-formed verdict object. -/
def wRespGood : LLMResponse :=
  .obj ⟨some (.num (1/2)), some (.str "green"), some (.str "ok"), some (.str "do")⟩

/-! ## Claims -/

/-- Claim C1. Calling `assess_risk_llm` twice with feature records that
produce an identical fingerprint returns bit-identical `RiskVerdict`
results; the second call performs no external completion request (the
request count and the whole state are unchanged) and the verdict stored
under the fingerprint by the first call is returned directly by the cache
check. -/
theorem assess_risk_llm_idempotent (os : PyOracles)
    (llm : Nat → Except Unit LLMResponse) (f₁ f₂ : DealFeatures)
    (st st₁ : AssessState) (v : RiskVerdict)
    (hkey : featureKey os f₁ = featureKey os f₂)
    (h1 : assess_risk_llm os llm f₁ st = (.ok v, st₁)) :
    cacheGet st₁.cache (featureKey os f₂) = some v ∧
      assess_risk_llm os llm f₂ st₁ = (.ok v, st₁) := by
  obtain ⟨hget, _⟩ := assess_stores os llm f₁ st st₁ v h1
  refine ⟨by rw [← hkey]; exact hget, ?_⟩
  exact assess_cache_hit os llm f₂ st₁ v (by rw [← hkey]; exact hget)

/-- Witness for C1 at a concrete input: a first call on `wFeat` stores the
parsed verdict, and the second call returns it unchanged. -/
theorem assess_risk_llm_idempotent_witness :
    cacheGet (AssessState.cache
        ⟨[(featureKey wOs wFeat, ⟨1/2, "green", "ok", "do"⟩)], 1⟩)
        (featureKey wOs wFeat) = some ⟨1/2, "green", "ok", "do"⟩ ∧
      assess_risk_llm wOs (fun _ => .ok wRespGood) wFeat
        ⟨[(featureKey wOs wFeat, ⟨1/2, "green", "ok", "do"⟩)], 1⟩ =
        (.ok ⟨1/2, "green", "ok", "do"⟩,
         ⟨[(featureKey wOs wFeat, ⟨1/2, "green", "ok", "do"⟩)], 1⟩) := by
  refine assess_risk_llm_idempotent wOs (fun _ => .ok wRespGood) wFeat wFeat
    ⟨[], 0⟩ ⟨[(featureKey wOs wFeat, ⟨1/2, "green", "ok", "do"⟩)], 1⟩
    ⟨1/2, "green", "ok", "do"⟩ rfl ?_
  have h := assess_cache_miss wOs (fun _ => .ok wRespGood) wFeat ⟨[], 0⟩ wRespGood rfl rfl
  rw [h]
  norm_num [response_verdict, parsed_fields, parse_validate, clamp_score,
    validate_level, default_text, pyStr, pyFloat, postpone_guard, round2, round_eq,
    wOs, wFeat, wRespGood, semantic_triggers, anyMatch]
  decide

/-- Claim C2. If `postpone` is among the semantic triggers of the feature
record and the completion service's parsed (validated) verdict has level
`"green"`, the verdict finally stored and returned by `assess_risk_llm`
has level `"yellow"` and score at least 0.9; when the parsed reason does
not already mention deferral the guard appends the deferral note, and when
the parsed action is empty or starts with the bare contact phrasing it is
replaced by the scheduling directive. -/
theorem postpone_guard_enforced (os : PyOracles)
    (llm : Nat → Except Unit LLMResponse) (f : DealFeatures) (st : AssessState)
    (resp : LLMResponse) (s : ℚ) (r a : String)
    (hmiss : cacheGet st.cache (featureKey os f) = none)
    (hllm : llm st.calls = .ok resp)
    (hsem : "postpone" ∈ semantic_triggers os.reSearch f.last_message_text)
    (hparse : parsed_fields os resp = some (s, "green", r, a)) :
    ∃ v : RiskVerdict, ∃ st₁ : AssessState,
      assess_risk_llm os llm f st = (.ok v, st₁) ∧
      v.level = "yellow" ∧ (9/10 : ℚ) ≤ v.score ∧
      cacheGet st₁.cache (featureKey os f) = some v ∧
      ((strContains r "перенос" = false ∧ strContains r "позже" = false) →
        v.reason = pyTrim (pyStripChars [';', ' '] (r ++ "; перенос обсуждения"))) ∧
      ((a = "" ∨ pyStartsWith (pyLower a) "свяж") →
        v.action = "Запланируйте слот на следующей неделе и закрепите повестку письмом.") := by
  have h := assess_cache_miss os llm f st resp hmiss hllm
  have hguard : postpone_guard (semantic_triggers os.reSearch f.last_message_text)
      s "green" r a =
      ((if s < 9/10 then (9/10 : ℚ) else s), "yellow",
       (if strContains r "перенос" = false ∧ strContains r "позже" = false
        then pyTrim (pyStripChars [';', ' '] (r ++ "; перенос обсуждения")) else r),
       (if a = "" ∨ pyStartsWith (pyLower a) "свяж"
        then "Запланируйте слот на следующей неделе и закрепите повестку письмом."
        else a)) := by
    unfold postpone_guard
    rw [if_pos ⟨hsem, rfl⟩]
  have hrv : response_verdict os resp (semantic_triggers os.reSearch f.last_message_text) =
      ⟨round2 (if s < 9/10 then (9/10 : ℚ) else s), "yellow",
       (if strContains r "перенос" = false ∧ strContains r "позже" = false
        then pyTrim (pyStripChars [';', ' '] (r ++ "; перенос обсуждения")) else r),
       (if a = "" ∨ pyStartsWith (pyLower a) "свяж"
        then "Запланируйте слот на следующей неделе и закрепите повестку письмом."
        else a)⟩ := by
    unfold response_verdict
    rw [hparse]
    dsimp only
    rw [hguard]
  rw [hrv] at h
  refine ⟨_, _, h, rfl, ?_, cacheGet_cons_self .., ?_, ?_⟩
  · exact le_round2_of_le _ (by split_ifs with hs <;> linarith)
  · intro hr
    exact if_pos hr
  · intro ha
    exact if_pos ha

/-- Witness for C2: a postpone message plus a green/0.5 verdict from the
service yields a stored yellow verdict with score at least 0.9. -/
theorem postpone_guard_enforced_witness :
    ∃ v : RiskVerdict, ∃ st₁ : AssessState,
      assess_risk_llm wOsPostpone (fun _ => .ok wRespGood)
        ⟨"9", "Gamma", "new", some 1, some 1, 10, "позже"⟩ ⟨[], 0⟩ = (.ok v, st₁) ∧
      v.level = "yellow" ∧ (9/10 : ℚ) ≤ v.score ∧
      cacheGet st₁.cache (featureKey wOsPostpone
        ⟨"9", "Gamma", "new", some 1, some 1, 10, "позже"⟩) = some v ∧
      ((strContains "ok" "перенос" = false ∧ strContains "ok" "позже" = false) →
        v.reason = pyTrim (pyStripChars [';', ' '] ("ok" ++ "; перенос обсуждения"))) ∧
      (("do" = "" ∨ pyStartsWith (pyLower "do") "свяж") →
        v.action = "Запланируйте слот на следующей неделе и закрепите повестку письмом.") := by
  refine postpone_guard_enforced wOsPostpone (fun _ => .ok wRespGood)
    ⟨"9", "Gamma", "new", some 1, some 1, 10, "позже"⟩ ⟨[], 0⟩ wRespGood
    (1/2) "ok" "do" rfl rfl (by decide) ?_
  norm_num [parsed_fields, parse_validate, clamp_score, validate_level, default_text,
    pyStr, pyFloat, wOsPostpone, wRespGood]
  decide

/-- Claim C3 counterexample. The claim asserts that every
`last_contact_days` in the closed interval [7, 14] produces
`no_reply_medium`; at the boundary value 7 the code (`elif lcd > 7`)
produces no trigger at all. -/
theorem active_triggers_boundary_counterexample :
    active_triggers_of 7 0 = [] ∧
      ¬ ("no_reply_medium" ∈ active_triggers_of 7 0) := by
  decide

/-- Claim C3 amended. For `last_contact_days > 14` the trigger list
contains `no_reply_high` and not `no_reply_medium`; for
`7 < last_contact_days ≤ 14` (the integer interval [8, 14], not [7, 14])
it contains `no_reply_medium` and not `no_reply_high`, and nothing else
when `stage_age_days ≤ 7`; the analogous thresholds hold for
`stage_age_days`. -/
theorem active_triggers_thresholds (lcd sad : Int) :
    (14 < lcd → "no_reply_high" ∈ active_triggers_of lcd sad ∧
       "no_reply_medium" ∉ active_triggers_of lcd sad) ∧
    (7 < lcd → lcd ≤ 14 → "no_reply_medium" ∈ active_triggers_of lcd sad ∧
       "no_reply_high" ∉ active_triggers_of lcd sad) ∧
    (7 < lcd → lcd ≤ 14 → sad ≤ 7 → active_triggers_of lcd sad = ["no_reply_medium"]) ∧
    (14 < sad → "stage_age_high" ∈ active_triggers_of lcd sad ∧
       "stage_age_medium" ∉ active_triggers_of lcd sad) ∧
    (7 < sad → sad ≤ 14 → "stage_age_medium" ∈ active_triggers_of lcd sad ∧
       "stage_age_high" ∉ active_triggers_of lcd sad) := by
  unfold active_triggers_of
  refine ⟨?_, ?_, ?_, ?_, ?_⟩ <;> intros <;> split_ifs <;> simp_all <;> omega

/-- Witness for C3's amended theorem at concrete day counts. -/
theorem active_triggers_thresholds_witness :
    ("no_reply_high" ∈ active_triggers_of 20 0 ∧
       "no_reply_medium" ∉ active_triggers_of 20 0) ∧
    ("no_reply_medium" ∈ active_triggers_of 10 0 ∧
       "no_reply_high" ∉ active_triggers_of 10 0) ∧
    active_triggers_of 10 0 = ["no_reply_medium"] ∧
    ("stage_age_high" ∈ active_triggers_of 0 20 ∧
       "stage_age_medium" ∉ active_triggers_of 0 20) ∧
    ("stage_age_medium" ∈ active_triggers_of 0 10 ∧
       "stage_age_high" ∉ active_triggers_of 0 10) :=
  ⟨(active_triggers_thresholds 20 0).1 (by decide),
   (active_triggers_thresholds 10 0).2.1 (by decide) (by decide),
   (active_triggers_thresholds 10 0).2.2.1 (by decide) (by decide) (by decide),
   (active_triggers_thresholds 0 20).2.2.2.1 (by decide),
   (active_triggers_thresholds 0 10).2.2.2.2 (by decide) (by decide)⟩

/-- Claim C4 counterexample. The claim asserts that a parsed JSON object
missing one of the required keys produces the fixed fallback verdict.  In
the code, `obj.get` defaults fill missing keys instead: a response object
with `score = 0.2`, `level = "green"` and no `reason`/`action` keys yields
the verdict `(0.2, green, placeholder reason, placeholder action)`, not
the fallback. -/
theorem missing_keys_no_fallback_counterexample :
    assess_risk_llm wOs (fun _ => .ok (.obj ⟨some (.num (1/5)), some (.str "green"), none, none⟩))
      wFeat ⟨[], 0⟩ =
      (.ok ⟨1/5, "green", "причина не указана", "Связаться с клиентом сегодня"⟩,
       ⟨[(featureKey wOs wFeat,
          ⟨1/5, "green", "причина не указана", "Связаться с клиентом сегодня"⟩)], 1⟩) ∧
    (⟨1/5, "green", "причина не указана", "Связаться с клиентом сегодня"⟩ : RiskVerdict) ≠
      llm_fallback := by
  constructor
  · have h := assess_cache_miss wOs
      (fun _ => .ok (.obj ⟨some (.num (1/5)), some (.str "green"), none, none⟩))
      wFeat ⟨[], 0⟩ (.obj ⟨some (.num (1/5)), some (.str "green"), none, none⟩) rfl rfl
    rw [h]
    norm_num [response_verdict, parsed_fields, parse_validate, clamp_score,
      validate_level, default_text, pyStr, pyFloat, postpone_guard, round2, round_eq,
      wOs, wFeat, semantic_triggers, anyMatch]
    decide
  · intro hEq
    simp [llm_fallback, RiskVerdict.mk.injEq] at hEq

/-- Claim C4 amended. A parsed object with missing required keys does not
trigger the fallback: a missing `score` defaults to 1.0, a missing `level`
to `"yellow"`, missing `reason`/`action` to the fixed placeholders.  The
fixed fallback verdict is produced — without raising — exactly on the
paths where the `try` block raises: no brace-delimited span, an
unparseable span, or a `score` value on which `float()` raises. -/
theorem parse_fallback_semantics (os : PyOracles) (o : ParsedObj) (sem : List String) :
    (response_verdict os .noJson sem = llm_fallback ∧
     response_verdict os .badJson sem = llm_fallback) ∧
    (∀ v : JVal, o.score = some v → pyFloat os v = none →
       response_verdict os (.obj o) sem = llm_fallback) ∧
    (o.score = none → parse_validate os o ≠ none ∧
       parse_validate os o = some (1, validate_level o.level,
         default_text "причина не указана" o.reason,
         default_text "Связаться с клиентом сегодня" o.action)) ∧
    (o.level = none → validate_level o.level = "yellow") ∧
    (o.reason = none → default_text "причина не указана" o.reason = "причина не указана") ∧
    (o.action = none →
       default_text "Связаться с клиентом сегодня" o.action = "Связаться с клиентом сегодня") := by
  refine ⟨⟨rfl, rfl⟩, ?_, ?_, ?_, ?_, ?_⟩
  · intro v hv hf
    simp [response_verdict, parsed_fields, parse_validate, hv, hf]
  · intro hs
    have h1 : clamp_score 1 = 1 := by norm_num [clamp_score]
    refine ⟨?_, ?_⟩ <;> simp [parse_validate, hs, h1]
  · intro hl
    rw [hl]; rfl
  · intro hr
    rw [hr]; rfl
  · intro ha
    rw [ha]; rfl

/-- Witness for C4's amended theorem: an all-missing object takes the
default path, a non-numeric score string takes the fallback path. -/
theorem parse_fallback_semantics_witness :
    response_verdict wOs .noJson [] = llm_fallback ∧
    response_verdict wOs (.obj ⟨some (.str "abc"), none, none, none⟩) [] = llm_fallback ∧
    parse_validate wOs ⟨none, none, none, none⟩ =
      some (1, validate_level none, default_text "причина не указана" none,
            default_text "Связаться с клиентом сегодня" none) ∧
    validate_level (none : Option JVal) = "yellow" ∧
    default_text "причина не указана" (none : Option JVal) = "причина не указана" ∧
    default_text "Связаться с клиентом сегодня" (none : Option JVal) =
      "Связаться с клиентом сегодня" := by
  have h := parse_fallback_semantics wOs ⟨none, none, none, none⟩ []
  have h2 := parse_fallback_semantics wOs ⟨some (.str "abc"), none, none, none⟩ []
  exact ⟨h.1.1, h2.2.1 (.str "abc") rfl rfl, (h.2.2.1 rfl).2, h.2.2.2.1 rfl,
    h.2.2.2.2.1 rfl, h.2.2.2.2.2 rfl⟩

/-- Claim C5. When the completion response contains no brace-delimited span,
JSON extraction fails and `assess_risk_llm` returns the fixed fallback
verdict (`score = 1.0`, `level = "yellow"`) as a normal result — the
extraction failure is never propagated to the caller. -/
theorem assess_no_json_fallback (os : PyOracles)
    (llm : Nat → Except Unit LLMResponse) (f : DealFeatures) (st : AssessState)
    (hmiss : cacheGet st.cache (featureKey os f) = none)
    (hllm : llm st.calls = .ok .noJson) :
    assess_risk_llm os llm f st =
      (.ok llm_fallback, ⟨(featureKey os f, llm_fallback) :: st.cache, st.calls + 1⟩) ∧
    llm_fallback.score = 1 ∧ llm_fallback.level = "yellow" := by
  have h := assess_cache_miss os llm f st .noJson hmiss hllm
  rw [response_verdict_of_unparsed os .noJson _ (parsed_fields_noJson os)] at h
  exact ⟨h, rfl, rfl⟩

/-- Witness for C5: a concrete no-JSON response yields the fallback. -/
theorem assess_no_json_fallback_witness :
    assess_risk_llm wOs (fun _ => .ok .noJson) wFeat ⟨[], 0⟩ =
      (.ok llm_fallback, ⟨[(featureKey wOs wFeat, llm_fallback)], 0 + 1⟩) ∧
    llm_fallback.score = 1 ∧ llm_fallback.level = "yellow" :=
  assess_no_json_fallback wOs (fun _ => .ok .noJson) wFeat ⟨[], 0⟩ rfl rfl

/-- Claim C6. Validation clamps every successfully parsed score into
[0, 2] (a parsed 5.0 is stored as 2.0, a parsed −3.0 validates to 0.0 and
is stored as 0.0 when the postpone guard does not interfere), forces a
level outside green/yellow/red to `"yellow"`, and replaces blank
reason/action with the fixed non-empty placeholders. -/
theorem validation_clamps (os : PyOracles) :
    (∀ o : ParsedObj, ∀ s : ℚ, ∀ l r a : String,
       parse_validate os o = some (s, l, r, a) →
       (0 ≤ s ∧ s ≤ 2) ∧ (l = "green" ∨ l = "yellow" ∨ l = "red") ∧ r ≠ "" ∧ a ≠ "") ∧
    (∀ o : ParsedObj, o.score = some (.num 5) → ∃ l r a,
       parse_validate os o = some (2, l, r, a)) ∧
    (∀ o : ParsedObj, o.score = some (.num (-3)) → ∃ l r a,
       parse_validate os o = some (0, l, r, a)) ∧
    (∀ v : JVal, ¬ (pyLower (pyStr v) = "green" ∨ pyLower (pyStr v) = "yellow" ∨
        pyLower (pyStr v) = "red") → validate_level (some v) = "yellow") ∧
    (∀ v : JVal, ∀ p : String, pyTrim (pyStr v) = "" → default_text p (some v) = p) ∧
    (∀ o : ParsedObj, ∀ sem : List String, o.score = some (.num 5) →
       (response_verdict os (.obj o) sem).score = 2) ∧
    (∀ o : ParsedObj, ∀ sem : List String, o.score = some (.num (-3)) →
       "postpone" ∉ sem → (response_verdict os (.obj o) sem).score = 0) := by
  have hc5 : clamp_score 5 = (2 : ℚ) := by norm_num [clamp_score]
  have hc3 : clamp_score (-3) = (0 : ℚ) := by norm_num [clamp_score]
  refine ⟨?_, ?_, ?_, ?_, ?_, ?_, ?_⟩
  · intro o s l r a h
    unfold parse_validate at h
    rcases hm : (match o.score with
                 | none => some (1 : ℚ)
                 | some v => pyFloat os v) with _ | s0
    · rw [hm] at h
      simp at h
    · rw [hm] at h
      simp only [Option.some.injEq, Prod.mk.injEq] at h
      obtain ⟨h1, h2, h3, h4⟩ := h
      subst h1; subst h2; subst h3; subst h4
      exact ⟨clamp_score_bounds s0, validate_level_valid o.level,
        default_text_ne _ (by decide) _, default_text_ne _ (by decide) _⟩
  · intro o h5
    refine ⟨validate_level o.level, default_text "причина не указана" o.reason,
      default_text "Связаться с клиентом сегодня" o.action, ?_⟩
    simp [parse_validate, h5, pyFloat, hc5]
  · intro o h3
    refine ⟨validate_level o.level, default_text "причина не указана" o.reason,
      default_text "Связаться с клиентом сегодня" o.action, ?_⟩
    simp [parse_validate, h3, pyFloat, hc3]
  · intro v hv
    simp only [validate_level]
    rw [if_neg hv]
  · intro v p h
    simp [default_text, h]
  · intro o sem h5
    have hp : parse_validate os o = some (2, validate_level o.level,
        default_text "причина не указана" o.reason,
        default_text "Связаться с клиентом сегодня" o.action) := by
      simp [parse_validate, h5, pyFloat, hc5]
    unfold response_verdict parsed_fields
    dsimp only
    rw [hp]
    dsimp only
    rw [postpone_guard_score_of_ge _ _ _ _ _ (by norm_num)]
    norm_num [round2, round_eq]
  · intro o sem h3 hpost
    have hp : parse_validate os o = some (0, validate_level o.level,
        default_text "причина не указана" o.reason,
        default_text "Связаться с клиентом сегодня" o.action) := by
      simp [parse_validate, h3, pyFloat, hc3]
    unfold response_verdict parsed_fields
    dsimp only
    rw [hp]
    dsimp only
    rw [postpone_guard_not_fired _ _ _ _ _ hpost]
    norm_num [round2, round_eq]

/-- Witness for C6 at concrete parsed objects: score 5.0 clamps and is
stored as 2.0, score −3.0 as 0.0, an unknown level forces yellow, a blank
reason takes the placeholder. -/
theorem validation_clamps_witness :
    ((0 ≤ (2 : ℚ) ∧ (2 : ℚ) ≤ 2) ∧
      ("red" = "green" ∨ "red" = "yellow" ∨ "red" = "red") ∧
      ("r" : String) ≠ "" ∧ ("a" : String) ≠ "") ∧
    (∃ l r a, parse_validate wOs ⟨some (.num 5), some (.str "red"),
        some (.str "r"), some (.str "a")⟩ = some (2, l, r, a)) ∧
    (∃ l r a, parse_validate wOs ⟨some (.num (-3)), some (.str "red"),
        some (.str "r"), some (.str "a")⟩ = some (0, l, r, a)) ∧
    validate_level (some (.str "purple")) = "yellow" ∧
    default_text "причина не указана" (some (.str "  ")) = "причина не указана" ∧
    (response_verdict wOs (.obj ⟨some (.num 5), some (.str "red"),
        some (.str "r"), some (.str "a")⟩) []).score = 2 ∧
    (response_verdict wOs (.obj ⟨some (.num (-3)), some (.str "red"),
        some (.str "r"), some (.str "a")⟩) []).score = 0 := by
  have h := validation_clamps wOs
  refine ⟨?_, h.2.1 _ rfl, h.2.2.1 _ rfl,
    h.2.2.2.1 (.str "purple") (by decide),
    h.2.2.2.2.1 (.str "  ") _ (by decide),
    h.2.2.2.2.2.1 _ [] rfl,
    h.2.2.2.2.2.2 _ [] rfl (by decide)⟩
  refine h.1 ⟨some (.num 5), some (.str "red"), some (.str "r"), some (.str "a")⟩ 2 "red" "r" "a" ?_
  norm_num [parse_validate, clamp_score, validate_level, default_text, pyStr, pyFloat]
  decide

/-- Claim C7. With `max_retries = N` (N ≥ 1), a completion call whose first
N−1 attempts fail and whose N-th succeeds returns the success after
exactly N attempts; one that fails on all N attempts propagates the
failure after exactly N attempts.  A backoff of `min(2^attempt, 4)` —
bounded by 4 — is slept after each failed attempt except the last:
exactly N−1 sleeps in either scenario. -/
theorem post_retry_semantics {α : Type} (oracle : Nat → Except Unit α)
    (N : Nat) (v : α) (hN : 1 ≤ N) :
    ((∀ i, 1 ≤ i → i < N → oracle i = .error ()) → oracle N = .ok v →
       LLMClient_post oracle N = (.ok v, N, (List.range' 1 (N - 1)).map backoff)) ∧
    ((∀ i, 1 ≤ i → i ≤ N → oracle i = .error ()) →
       LLMClient_post oracle N = (.error (), N, (List.range' 1 (N - 1)).map backoff)) ∧
    ((List.range' 1 (N - 1)).map backoff).length = N - 1 ∧
    (∀ s ∈ (List.range' 1 (N - 1)).map backoff, s ≤ 4) := by
  have hsplit : List.range' 1 N = List.range' 1 (N - 1) ++ [N] := by
    have h := @List.range'_concat 1 1 (N - 1)
    have hN' : N - 1 + 1 = N := Nat.succ_pred_eq_of_pos hN
    rw [hN'] at h
    rw [h]
    congr 1
    simp
    omega
  refine ⟨?_, ?_, by simp, ?_⟩
  · intro hfail hok
    unfold LLMClient_post
    rw [hsplit]
    have h := post_attempts_succeeds oracle v (List.range' 1 (N - 1)) N [] ?_ hok
    · rw [h]
      congr 1
      simp
      omega
    · intro a ha
      rw [List.mem_range'_1] at ha
      exact hfail a ha.1 (by omega)
  · intro hfail
    unfold LLMClient_post
    have h := post_attempts_all_fail oracle (List.range' 1 N) ?_ ?_
    · rw [h, hsplit, List.dropLast_concat]
      simp
      omega
    · intro hc
      have := congrArg List.length hc
      simp at this
      omega
    · intro a ha
      rw [List.mem_range'_1] at ha
      exact hfail a ha.1 (by omega)
  · intro s hs
    rw [List.mem_map] at hs
    obtain ⟨a, -, rfl⟩ := hs
    exact min_le_right _ _

/-- Witness for C7 at `N = 2` (the configured default): an oracle failing
on attempt 1 and succeeding on attempt 2 returns after 2 attempts with one
bounded sleep, and an always-failing oracle raises after 2 attempts. -/
theorem post_retry_semantics_witness :
    LLMClient_post (fun i => if i = 2 then .ok 42 else .error ()) 2 =
      (.ok 42, 2, (List.range' 1 (2 - 1)).map backoff) ∧
    LLMClient_post (fun _ => (.error () : Except Unit Nat)) 2 =
      (.error (), 2, (List.range' 1 (2 - 1)).map backoff) ∧
    ((List.range' 1 (2 - 1)).map backoff).length = 2 - 1 ∧
    (∀ s ∈ (List.range' 1 (2 - 1)).map backoff, s ≤ 4) := by
  have h1 := post_retry_semantics (fun i => if i = 2 then .ok 42 else .error ()) 2 42
    (by decide)
  have h2 := post_retry_semantics (fun _ => (.error () : Except Unit Nat)) 2 0 (by decide)
  refine ⟨?_, ?_, h1.2.2.1, h1.2.2.2⟩
  · refine h1.1 ?_ rfl
    intro i h1i hi2
    have : i = 1 := by omega
    subst this
    rfl
  · refine h2.2.1 ?_
    intro i h1i hi2
    simp

/-- Claim C8. `_days_since_any` returns the sentinel 9999 when the date
string is absent, empty or unparseable, and otherwise the day delta
floored at 0 (never negative, future dates clamp to 0);
`_stage_age_days` applies the same parsing and clamping but returns 0
instead of the sentinel on absence/failure. -/
theorem date_derivation_spec (parse : String → Option Int) (s : String) (d : Int) :
    days_since_any parse none = 9999 ∧
    days_since_any parse (some "") = 9999 ∧
    (parse s = none → days_since_any parse (some s) = 9999) ∧
    (s ≠ "" → parse s = some d → days_since_any parse (some s) = max 0 d ∧
       0 ≤ days_since_any parse (some s) ∧
       (d < 0 → days_since_any parse (some s) = 0)) ∧
    stage_age_days_of parse none = 0 ∧
    stage_age_days_of parse (some "") = 0 ∧
    (parse s = none → stage_age_days_of parse (some s) = 0) ∧
    (s ≠ "" → parse s = some d → stage_age_days_of parse (some s) = max 0 d) := by
  refine ⟨rfl, by simp [days_since_any], ?_, ?_, rfl, by simp [stage_age_days_of], ?_, ?_⟩
  · intro hp
    simp [days_since_any, hp]
  · intro hs hp
    refine ⟨by simp [days_since_any, hs, hp], ?_, ?_⟩
    · simp [days_since_any, hs, hp]
    · intro hd
      simp [days_since_any, hs, hp]
      omega
  · intro hp
    simp [stage_age_days_of, hp]
  · intro hs hp
    simp [stage_age_days_of, hs, hp]

/-- Witness for C8 with a concrete parse oracle mapping `"x"` to a
future-dated delta of −5 days. -/
theorem date_derivation_spec_witness :
    days_since_any (fun s => if s = "x" then some (-5) else none) none = 9999 ∧
    days_since_any (fun s => if s = "x" then some (-5) else none) (some "") = 9999 ∧
    days_since_any (fun s => if s = "x" then some (-5) else none) (some "y") = 9999 ∧
    (days_since_any (fun s => if s = "x" then some (-5) else none) (some "x") = max 0 (-5) ∧
      0 ≤ days_since_any (fun s => if s = "x" then some (-5) else none) (some "x") ∧
      days_since_any (fun s => if s = "x" then some (-5) else none) (some "x") = 0) ∧
    stage_age_days_of (fun s => if s = "x" then some (-5) else none) none = 0 ∧
    stage_age_days_of (fun s => if s = "x" then some (-5) else none) (some "") = 0 ∧
    stage_age_days_of (fun s => if s = "x" then some (-5) else none) (some "y") = 0 ∧
    stage_age_days_of (fun s => if s = "x" then some (-5) else none) (some "x") = max 0 (-5) := by
  have h := date_derivation_spec (fun s => if s = "x" then some (-5) else none) "x" (-5)
  have h2 := date_derivation_spec (fun s => if s = "x" then some (-5) else none) "y" 0
  obtain ⟨a1, a2, -, a4, a5, a6, -, a8⟩ := h
  obtain ⟨-, -, b3, -, -, -, b7, -⟩ := h2
  obtain ⟨c1, c2, c3⟩ := a4 (by decide) (by decide)
  exact ⟨a1, a2, b3 (by decide), ⟨c1, c2, c3 (by decide)⟩, a5, a6, b7 (by decide),
    a8 (by decide) (by decide)⟩

/-- Claim C9. When extraction or parsing of the response fails, the fallback
verdict itself is stored in the cache under the feature fingerprint before
being returned, so every subsequent call with the same fingerprint returns
the fallback without a new external completion request (the state,
including the request count, no longer changes — for any later oracle). -/
theorem fallback_is_cached (os : PyOracles) (llm : Nat → Except Unit LLMResponse)
    (f : DealFeatures) (st : AssessState) (resp : LLMResponse)
    (hmiss : cacheGet st.cache (featureKey os f) = none)
    (hllm : llm st.calls = .ok resp)
    (hfail : parsed_fields os resp = none) :
    assess_risk_llm os llm f st =
      (.ok llm_fallback, ⟨(featureKey os f, llm_fallback) :: st.cache, st.calls + 1⟩) ∧
    cacheGet ((featureKey os f, llm_fallback) :: st.cache) (featureKey os f) =
      some llm_fallback ∧
    (∀ llm₂ : Nat → Except Unit LLMResponse,
      assess_risk_llm os llm₂ f ⟨(featureKey os f, llm_fallback) :: st.cache, st.calls + 1⟩ =
        (.ok llm_fallback, ⟨(featureKey os f, llm_fallback) :: st.cache, st.calls + 1⟩)) := by
  have h := assess_cache_miss os llm f st resp hmiss hllm
  rw [response_verdict_of_unparsed os resp _ hfail] at h
  refine ⟨h, cacheGet_cons_self .., fun llm₂ => ?_⟩
  exact assess_cache_hit os llm₂ f _ llm_fallback (cacheGet_cons_self ..)

/-- Witness for C9: a concrete unparseable response pins the fallback in
the cache and later calls return it with no further requests. -/
theorem fallback_is_cached_witness :
    assess_risk_llm wOs (fun _ => .ok .badJson) wFeat ⟨[], 0⟩ =
      (.ok llm_fallback, ⟨[(featureKey wOs wFeat, llm_fallback)], 0 + 1⟩) ∧
    cacheGet [(featureKey wOs wFeat, llm_fallback)] (featureKey wOs wFeat) =
      some llm_fallback ∧
    (∀ llm₂ : Nat → Except Unit LLMResponse,
      assess_risk_llm wOs llm₂ wFeat ⟨[(featureKey wOs wFeat, llm_fallback)], 0 + 1⟩ =
        (.ok llm_fallback, ⟨[(featureKey wOs wFeat, llm_fallback)], 0 + 1⟩)) :=
  fallback_is_cached wOs (fun _ => .ok .badJson) wFeat ⟨[], 0⟩ .badJson rfl rfl rfl

/-- Claim C10. A missing (or `None`) `last_contact_days`/`stage_age_days` is
coerced to 0 by `int(features.get(..., 0) or 0)` before threshold
evaluation, so an unknown recency produces no `no_reply_*` or
`stage_age_*` trigger in `assess_risk_llm`. -/
theorem missing_days_coerced_to_zero (f : DealFeatures)
    (h1 : f.last_contact_days = none) (h2 : f.stage_age_days = none) :
    coerceDays f.last_contact_days = 0 ∧ coerceDays f.stage_age_days = 0 ∧
    assessTriggers f = [] := by
  refine ⟨by rw [h1]; rfl, by rw [h2]; rfl, ?_⟩
  unfold assessTriggers
  rw [h1, h2]
  decide

/-- Witness for C10 at a concrete feature record with both fields
missing. -/
theorem missing_days_coerced_to_zero_witness :
    coerceDays wFeatNone.last_contact_days = 0 ∧
    coerceDays wFeatNone.stage_age_days = 0 ∧
    assessTriggers wFeatNone = [] :=
  missing_days_coerced_to_zero wFeatNone rfl rfl

end CRMRisk
